import Mathlib

/-!
Shallow embedding of the ESG green-loan decision engine (src/app.py, with the
variant requirement calculator of src/app_new.py), over exact rational
arithmetic. Python `round(x, 2)` is modelled by `round2` below using
Mathlib's `round` (round half towards positive infinity); no statement in
this development depends on the behaviour at exact half-way points.
-/

namespace ESG

/-- Rounding to two decimal places, modelling Python `round(x, 2)`. -/
def round2 (q : ℚ) : ℚ := ((round (q * 100) : ℤ) : ℚ) / 100

/-- `BorrowerApplication` from src/app.py. The `meta` dictionary is read by
the code only through `meta.get("has_recent_remote_sensing", False)` and
`meta.get("soil_tests_ok", True)`, so it is embedded as the two booleans with
those defaults already applied. -/
structure BorrowerApplication where
  company_id : String
  loan_requested : ℚ
  reported_credits : ℚ
  verified_credits : ℚ
  registry_source : String
  project_type : String
  has_recent_remote_sensing : Bool
  soil_tests_ok : Bool

/-- The derived signal dictionary returned by `greenwash_signals`. -/
structure SignalSet where
  gap : ℚ
  registry_quality : ℚ
  project_quality : ℚ
  biology_confidence : ℚ

/-- `Decision` from src/app.py. -/
structure Decision where
  status : String
  reason : String
  interest_rate_apr : ℚ
  required_credits : ℚ
  greenwashing_score : ℚ
  audit_ref : String

/-- One entry of the engine's audit log (`_log` in src/app.py). The Python
`hash_like` field is `hex(abs(hash((company_id, decision))) % (1<<64))`;
Python's `hash` is process-randomised, so the hash value is supplied by the
environment as a parameter and only the `% 2^64` reduction is modelled. -/
structure AuditRecord where
  ref : String
  company_id : String
  decision : String
  signals : SignalSet
  timestamp : ℤ
  hash_like : ℕ

def DEFAULT_REQUIRED_CREDITS_PER_1K : ℚ := 10
def GREENWASH_GAP_TOLERANCE : ℚ := 10/100

def REGISTRY_QUALITY_WEIGHTS : List (String × ℚ) :=
  [("Gold Standard", 95/100), ("Verra", 90/100), ("Other", 80/100)]

def PROJECT_RISK_WEIGHTS : List (String × ℚ) :=
  [("Reforestation", 90/100), ("Renewable", 95/100), ("Cookstove", 85/100), ("Other", 80/100)]

def BASE_RATE : ℚ := 6/100
def PENALTY_RATE_STEP : ℚ := 3/100

/-- Python `d.get(k, default)` on the weight tables. -/
def dictGet (d : List (String × ℚ)) (k : String) (default : ℚ) : ℚ :=
  match d.lookup k with
  | some v => v
  | none => default

/-- Python `d[k]` on the weight tables; in the source it is only applied to
the key `"Other"`, which is present in both tables, so the `none` branch is
unreachable there. -/
def dictIndex (d : List (String × ℚ)) (k : String) : ℚ :=
  (d.lookup k).getD 0

/-- `BiologyValidator.score` from src/app.py. -/
def bioScore (app : BorrowerApplication) : ℚ :=
  let s0 : ℚ := 1
  let s1 := if app.project_type.toLower = "reforestation" then s0 * (95/100) else s0
  let s2 := if app.has_recent_remote_sensing then s1 * 1 else s1 * (90/100)
  let s3 := if app.soil_tests_ok = false then s2 * (80/100) else s2
  max 0 (min 1 s3)

/-- The engine state: the two configuration fields set by
`GreenLoanContract.__init__` plus the mutable audit log. The
`BiologyValidator` instance is stateless, so it is not part of the state. -/
structure GreenLoanContract where
  required_credits_per_1k : ℚ
  gap_tolerance : ℚ
  audit_log : List AuditRecord

/-- `GreenLoanContract()` with the default constructor arguments. -/
def defaultContract : GreenLoanContract :=
  { required_credits_per_1k := DEFAULT_REQUIRED_CREDITS_PER_1K
    gap_tolerance := GREENWASH_GAP_TOLERANCE
    audit_log := [] }

/-- `GreenLoanContract.required_credits` from src/app.py (no rounding). -/
def GreenLoanContract.required_credits (c : GreenLoanContract) (loan_requested : ℚ) : ℚ :=
  (loan_requested / 1000) * c.required_credits_per_1k

/-- `required_credits_eur` from src/app_new.py (rounded to 2 decimals). -/
def required_credits_eur (loan_eur : ℚ) (rule_per_1000 : ℚ) : ℚ :=
  round2 ((loan_eur / 1000) * rule_per_1000)

/-- `GreenLoanContract.greenwash_signals` from src/app.py. -/
def GreenLoanContract.greenwash_signals (_c : GreenLoanContract) (app : BorrowerApplication) :
    SignalSet :=
  let gap : ℚ :=
    if app.verified_credits > 0 then
      max 0 ((app.reported_credits - app.verified_credits) / app.verified_credits)
    else 1
  { gap := gap
    registry_quality :=
      dictGet REGISTRY_QUALITY_WEIGHTS app.registry_source
        (dictIndex REGISTRY_QUALITY_WEIGHTS "Other")
    project_quality :=
      dictGet PROJECT_RISK_WEIGHTS app.project_type
        (dictIndex PROJECT_RISK_WEIGHTS "Other")
    biology_confidence := bioScore app }

/-- `GreenLoanContract.greenwashing_score` from src/app.py, as the total
rational-arithmetic function (see `greenwashing_scoreChecked` for the
zero-divisor behaviour of the Python source). -/
def GreenLoanContract.greenwashing_score (c : GreenLoanContract) (signals : SignalSet) : ℚ :=
  let gap_component := min 1 (signals.gap / c.gap_tolerance)
  let quality_component := 1 - (5/10) * (signals.registry_quality + signals.project_quality)
  let bio_component := 1 - signals.biology_confidence
  let raw := (5/10) * gap_component + (3/10) * quality_component + (2/10) * bio_component
  round2 (100 * max 0 (min 1 raw))

/-- `GreenLoanContract.greenwashing_score` with the fallibility of the Python
source made explicit: the expression `signals["gap"] / self.gap_tolerance`
has no zero guard, and Python float division raises `ZeroDivisionError` when
`gap_tolerance` is `0.0`, modelled here by `none`. -/
def greenwashing_scoreChecked (c : GreenLoanContract) (signals : SignalSet) : Option ℚ :=
  if c.gap_tolerance = 0 then none
  else
    let gap_component := min 1 (signals.gap / c.gap_tolerance)
    let quality_component := 1 - (5/10) * (signals.registry_quality + signals.project_quality)
    let bio_component := 1 - signals.biology_confidence
    let raw := (5/10) * gap_component + (3/10) * quality_component + (2/10) * bio_component
    some (round2 (100 * max 0 (min 1 raw)))

/-- `GreenLoanContract.price` from src/app.py (`self` is unused there). -/
def price (base_rate : ℚ) (score : ℚ) : ℚ :=
  if score < 25 then base_rate
  else if score < 50 then base_rate + PENALTY_RATE_STEP
  else if score < 75 then base_rate + 2 * PENALTY_RATE_STEP
  else base_rate + 3 * PENALTY_RATE_STEP

/-- `GreenLoanContract._log` from src/app.py. The wall-clock values
`int(time.time()*1000)` and `int(time.time())` and the randomised Python
hash are supplied by the environment as `now_ms`, `now_s` and `hashv`.
Returns the reference string and the updated engine state. -/
def GreenLoanContract.logEvent (c : GreenLoanContract) (now_ms now_s : ℤ) (hashv : ℕ)
    (app : BorrowerApplication) (signals : SignalSet) (decision : String) :
    String × GreenLoanContract :=
  let ref := "evt_" ++ toString now_ms ++ "_" ++ app.company_id
  (ref,
    { c with
      audit_log := c.audit_log ++
        [{ ref := ref
           company_id := app.company_id
           decision := decision
           signals := signals
           timestamp := now_s
           hash_like := hashv % 2 ^ 64 }] })

/-- `GreenLoanContract.evaluate` from src/app.py, returning the `Decision`
and the updated engine state. -/
def GreenLoanContract.evaluate (c : GreenLoanContract) (now_ms now_s : ℤ) (hashv : ℕ)
    (app : BorrowerApplication) : Decision × GreenLoanContract :=
  let req := c.required_credits app.loan_requested
  let signals := c.greenwash_signals app
  let score := c.greenwashing_score signals
  let has_sufficient_verified := app.verified_credits ≥ req
  let mismatch_ok := signals.gap ≤ c.gap_tolerance
  if has_sufficient_verified ∧ mismatch_ok ∧ score < 50 then
    let rate := price BASE_RATE score
    let r := c.logEvent now_ms now_s hashv app signals "APPROVED"
    ({ status := "APPROVED"
       reason := "Credits sufficient and clean signals"
       interest_rate_apr := rate
       required_credits := req
       greenwashing_score := score
       audit_ref := r.1 }, r.2)
  else if has_sufficient_verified ∧ score < 75 then
    let rate := price BASE_RATE score
    let r := c.logEvent now_ms now_s hashv app signals "APPROVED_WITH_PENALTY"
    ({ status := "APPROVED_WITH_PENALTY"
       reason := "Credits sufficient with moderate greenwashing risk"
       interest_rate_apr := rate
       required_credits := req
       greenwashing_score := score
       audit_ref := r.1 }, r.2)
  else
    let r := c.logEvent now_ms now_s hashv app signals "REJECTED"
    ({ status := "REJECTED"
       reason := "Insufficient verified credits or high greenwashing risk"
       interest_rate_apr := 0
       required_credits := req
       greenwashing_score := score
       audit_ref := r.1 }, r.2)

/-- Favourability ordering on decision statuses:
APPROVED > APPROVED_WITH_PENALTY > REJECTED. -/
def statusRank (s : String) : ℕ :=
  if s = "APPROVED" then 2
  else if s = "APPROVED_WITH_PENALTY" then 1
  else 0

theorem round2_mono {q r : ℚ} (h : q ≤ r) : round2 q ≤ round2 r := by
  unfold round2
  have h1 : round (q * 100) ≤ round (r * 100) := by
    rw [round_eq, round_eq]
    exact Int.floor_le_floor (by linarith)
  have h2 : ((round (q * 100) : ℤ) : ℚ) ≤ ((round (r * 100) : ℤ) : ℚ) := by exact_mod_cast h1
  linarith

theorem round2_zero : round2 0 = 0 := by
  simp [round2]

theorem round2_hundred : round2 100 = 100 := by
  have h : ((100 : ℚ) * 100) = ((10000 : ℤ) : ℚ) := by norm_num
  rw [round2, h, round_intCast]
  norm_num

/-- C3: the derived gap is `max 0 ((reported − verified) / verified)` when
`verified > 0` and exactly `1` when `verified = 0`. -/
theorem C3_gap_convention (c : GreenLoanContract) (app : BorrowerApplication) :
    (0 < app.verified_credits →
      (c.greenwash_signals app).gap =
        max 0 ((app.reported_credits - app.verified_credits) / app.verified_credits)) ∧
    (app.verified_credits = 0 → (c.greenwash_signals app).gap = 1) := by
  constructor
  · intro h
    simp [GreenLoanContract.greenwash_signals, h]
  · intro h
    simp [GreenLoanContract.greenwash_signals, h]

theorem C3_witness :
    (defaultContract.greenwash_signals
      { company_id := "X", loan_requested := 0, reported_credits := 100,
        verified_credits := 0, registry_source := "Other", project_type := "Other",
        has_recent_remote_sensing := false, soil_tests_ok := true }).gap = 1 :=
  (C3_gap_convention defaultContract
    { company_id := "X", loan_requested := 0, reported_credits := 100,
      verified_credits := 0, registry_source := "Other", project_type := "Other",
      has_recent_remote_sensing := false, soil_tests_ok := true }).2 rfl

/-- C4 counterexample: the claim says the required-credits calculator rounds
to 2 decimal places, but `GreenLoanContract.required_credits` (src/app.py)
does not: at loan 0.1 with the default rate it returns 0.001, while the
2-decimal rounding of (0.1/1000)×10 is 0. -/
theorem C4_counterexample :
    defaultContract.required_credits (1/10) = 1/1000 ∧
    round2 ((1/10 : ℚ) / 1000 * 10) = 0 ∧
    defaultContract.required_credits (1/10) ≠ round2 ((1/10 : ℚ) / 1000 * 10) := by
  have hval : defaultContract.required_credits (1/10) = 1/1000 := by
    norm_num [defaultContract, GreenLoanContract.required_credits,
      DEFAULT_REQUIRED_CREDITS_PER_1K]
  have hround : round2 ((1/10 : ℚ) / 1000 * 10) = 0 := by
    have h : ((1/10 : ℚ) / 1000 * 10) * 100 = 1/10 := by norm_num
    rw [round2, h, round_eq]
    norm_num [Int.floor_eq_iff]
  exact ⟨hval, hround, by rw [hval, hround]; norm_num⟩

/-- C4 amended: `GreenLoanContract.required_credits` (src/app.py) returns
(L/1000)×rate exactly, with no rounding; `required_credits_eur`
(src/app_new.py) returns the same value rounded to 2 decimal places. Both
are monotonically non-decreasing in L when the rate is non-negative, and
both map L = 0 to 0. -/
theorem C4_required_credits (c : GreenLoanContract) (rate L1 L2 : ℚ)
    (hc : 0 ≤ c.required_credits_per_1k) (hrate : 0 ≤ rate) (h12 : L1 ≤ L2) :
    c.required_credits L1 = L1 / 1000 * c.required_credits_per_1k ∧
    required_credits_eur L1 rate = round2 (L1 / 1000 * rate) ∧
    c.required_credits L1 ≤ c.required_credits L2 ∧
    required_credits_eur L1 rate ≤ required_credits_eur L2 rate ∧
    c.required_credits 0 = 0 ∧
    required_credits_eur 0 rate = 0 := by
  have hmul : L1 / 1000 * rate ≤ L2 / 1000 * rate := by
    apply mul_le_mul_of_nonneg_right _ hrate
    linarith
  refine ⟨rfl, rfl, ?_, round2_mono hmul, ?_, ?_⟩
  · unfold GreenLoanContract.required_credits
    apply mul_le_mul_of_nonneg_right _ hc
    linarith
  · simp [GreenLoanContract.required_credits]
  · simp [required_credits_eur, round2_zero]

theorem C4_witness :
    (0 : ℚ) ≤ defaultContract.required_credits_per_1k ∧ (0 : ℚ) ≤ 10 ∧ (1 : ℚ) ≤ 2 ∧
    defaultContract.required_credits 1 ≤ defaultContract.required_credits 2 :=
  ⟨by norm_num [defaultContract, DEFAULT_REQUIRED_CREDITS_PER_1K], by norm_num, by norm_num,
    (C4_required_credits defaultContract 10 1 2
      (by norm_num [defaultContract, DEFAULT_REQUIRED_CREDITS_PER_1K])
      (by norm_num) (by norm_num)).2.2.1⟩

/-- C6 counterexample: the claim says the gap is 0 whenever reported
credits are 0 regardless of verified credits, but with reported = 0 and
verified = 0 the code takes the no-verification branch and returns gap = 1. -/
theorem C6_counterexample :
    (defaultContract.greenwash_signals
      { company_id := "X", loan_requested := 0, reported_credits := 0,
        verified_credits := 0, registry_source := "Other", project_type := "Other",
        has_recent_remote_sensing := false, soil_tests_ok := true }).gap = 1 ∧
    (defaultContract.greenwash_signals
      { company_id := "X", loan_requested := 0, reported_credits := 0,
        verified_credits := 0, registry_source := "Other", project_type := "Other",
        has_recent_remote_sensing := false, soil_tests_ok := true }).gap ≠ 0 := by
  constructor
  · simp [GreenLoanContract.greenwash_signals]
  · simp [GreenLoanContract.greenwash_signals]

/-- C6 amended: with reported credits 0 the gap is 0 whenever verified
credits are strictly positive; when verified credits are 0 the
no-verification branch dominates and the gap is 1. -/
theorem C6_gap_when_unreported (c : GreenLoanContract) (app : BorrowerApplication)
    (hrep : app.reported_credits = 0) :
    (0 < app.verified_credits → (c.greenwash_signals app).gap = 0) ∧
    (app.verified_credits = 0 → (c.greenwash_signals app).gap = 1) := by
  constructor
  · intro h
    have hdiv : (app.reported_credits - app.verified_credits) / app.verified_credits = -1 := by
      rw [hrep]
      field_simp
    simp [GreenLoanContract.greenwash_signals, h, hdiv]
  · intro h
    simp [GreenLoanContract.greenwash_signals, h]

theorem C6_witness :
    (defaultContract.greenwash_signals
      { company_id := "X", loan_requested := 0, reported_credits := 0,
        verified_credits := 5, registry_source := "Other", project_type := "Other",
        has_recent_remote_sensing := false, soil_tests_ok := true }).gap = 0 :=
  (C6_gap_when_unreported defaultContract
    { company_id := "X", loan_requested := 0, reported_credits := 0,
      verified_credits := 5, registry_source := "Other", project_type := "Other",
      has_recent_remote_sensing := false, soil_tests_ok := true } rfl).1 (by norm_num)

/-- C7: the priced interest rate is the step function over the score with
base rate on [0,25), one step on [25,50), two steps on [50,75) and three
steps on [75,∞); the defaults are a 6% base rate and 3% step. -/
theorem C7_price_step (base score : ℚ) :
    (score < 25 → price base score = base) ∧
    (25 ≤ score → score < 50 → price base score = base + PENALTY_RATE_STEP) ∧
    (50 ≤ score → score < 75 → price base score = base + 2 * PENALTY_RATE_STEP) ∧
    (75 ≤ score → price base score = base + 3 * PENALTY_RATE_STEP) ∧
    BASE_RATE = 6/100 ∧ PENALTY_RATE_STEP = 3/100 := by
  refine ⟨?_, ?_, ?_, ?_, rfl, rfl⟩ <;>
    · intros
      unfold price
      split_ifs <;> first | rfl | linarith

theorem C7_witness : price (6/100) 30 = 6/100 + PENALTY_RATE_STEP :=
  (C7_price_step (6/100) 30).2.1 (by norm_num) (by norm_num)

/-- C8: a registry source outside its weight table falls back to that
table's designated Other weight, and, independently, a project type outside
its weight table falls back to its table's Other weight (0.80 in both
tables); each fallback applies per signal, and the lookup-with-fallback is
total, so it never fails for any string input. -/
theorem C8_fallback (c : GreenLoanContract) (app : BorrowerApplication) :
    (app.registry_source ≠ "Gold Standard" → app.registry_source ≠ "Verra" →
      app.registry_source ≠ "Other" →
      (c.greenwash_signals app).registry_quality =
        dictIndex REGISTRY_QUALITY_WEIGHTS "Other") ∧
    (app.project_type ≠ "Reforestation" → app.project_type ≠ "Renewable" →
      app.project_type ≠ "Cookstove" → app.project_type ≠ "Other" →
      (c.greenwash_signals app).project_quality =
        dictIndex PROJECT_RISK_WEIGHTS "Other") ∧
    dictIndex REGISTRY_QUALITY_WEIGHTS "Other" = 80/100 ∧
    dictIndex PROJECT_RISK_WEIGHTS "Other" = 80/100 := by
  refine ⟨?_, ?_, rfl, rfl⟩
  · intro hr1 hr2 hr3
    have er1 : (app.registry_source == "Gold Standard") = false := beq_eq_false_iff_ne.mpr hr1
    have er2 : (app.registry_source == "Verra") = false := beq_eq_false_iff_ne.mpr hr2
    have er3 : (app.registry_source == "Other") = false := beq_eq_false_iff_ne.mpr hr3
    simp [GreenLoanContract.greenwash_signals, dictGet, dictIndex,
      REGISTRY_QUALITY_WEIGHTS, List.lookup, er1, er2, er3]
  · intro hp1 hp2 hp3 hp4
    have ep1 : (app.project_type == "Reforestation") = false := beq_eq_false_iff_ne.mpr hp1
    have ep2 : (app.project_type == "Renewable") = false := beq_eq_false_iff_ne.mpr hp2
    have ep3 : (app.project_type == "Cookstove") = false := beq_eq_false_iff_ne.mpr hp3
    have ep4 : (app.project_type == "Other") = false := beq_eq_false_iff_ne.mpr hp4
    simp [GreenLoanContract.greenwash_signals, dictGet, dictIndex,
      PROJECT_RISK_WEIGHTS, List.lookup, ep1, ep2, ep3, ep4]

theorem C8_witness :
    (defaultContract.greenwash_signals
      { company_id := "X", loan_requested := 0, reported_credits := 0,
        verified_credits := 5, registry_source := "Some New Registry",
        project_type := "Renewable",
        has_recent_remote_sensing := false, soil_tests_ok := true }).registry_quality = 80/100 :=
  by
    have h := C8_fallback defaultContract
      { company_id := "X", loan_requested := 0, reported_credits := 0,
        verified_credits := 5, registry_source := "Some New Registry",
        project_type := "Renewable",
        has_recent_remote_sensing := false, soil_tests_ok := true }
    rw [h.1 (by decide) (by decide) (by decide), h.2.2.1]

/-- C9: the score's division `gap / gap_tolerance` has no zero guard, so
`gap_tolerance ≠ 0` is a genuine precondition: with a non-zero tolerance the
checked computation succeeds and agrees with the total embedding, and with
tolerance 0 it is undefined (Python float division raises
ZeroDivisionError); the default tolerance 0.10 is non-zero. -/
theorem C9_zero_tolerance (c : GreenLoanContract) (signals : SignalSet) :
    (c.gap_tolerance ≠ 0 →
      greenwashing_scoreChecked c signals = some (c.greenwashing_score signals)) ∧
    (c.gap_tolerance = 0 → greenwashing_scoreChecked c signals = none) ∧
    GREENWASH_GAP_TOLERANCE ≠ 0 := by
  refine ⟨?_, ?_, by norm_num [GREENWASH_GAP_TOLERANCE]⟩ <;>
    · intro h
      simp [greenwashing_scoreChecked, GreenLoanContract.greenwashing_score, h]

theorem C9_witness :
    greenwashing_scoreChecked defaultContract
      { gap := 0, registry_quality := 80/100, project_quality := 80/100,
        biology_confidence := 9/10 } =
    some (defaultContract.greenwashing_score
      { gap := 0, registry_quality := 80/100, project_quality := 80/100,
        biology_confidence := 9/10 }) :=
  (C9_zero_tolerance defaultContract
    { gap := 0, registry_quality := 80/100, project_quality := 80/100,
      biology_confidence := 9/10 }).1
    (by norm_num [defaultContract, GREENWASH_GAP_TOLERANCE])

theorem evaluate_log_append (c : GreenLoanContract) (now_ms now_s : ℤ) (hashv : ℕ)
    (app : BorrowerApplication) :
    ∃ rec, (c.evaluate now_ms now_s hashv app).2 =
      { c with audit_log := c.audit_log ++ [rec] } := by
  unfold GreenLoanContract.evaluate GreenLoanContract.logEvent
  dsimp only
  split_ifs <;> exact ⟨_, rfl⟩

theorem evaluate_status_eq (c : GreenLoanContract) (now_ms now_s : ℤ) (hashv : ℕ)
    (app : BorrowerApplication) :
    (c.evaluate now_ms now_s hashv app).1.status =
      if app.verified_credits ≥ c.required_credits app.loan_requested ∧
          (c.greenwash_signals app).gap ≤ c.gap_tolerance ∧
          c.greenwashing_score (c.greenwash_signals app) < 50 then "APPROVED"
      else if app.verified_credits ≥ c.required_credits app.loan_requested ∧
          c.greenwashing_score (c.greenwash_signals app) < 75 then "APPROVED_WITH_PENALTY"
      else "REJECTED" := by
  unfold GreenLoanContract.evaluate
  dsimp only
  split_ifs <;> rfl

theorem evaluate_rate_eq (c : GreenLoanContract) (now_ms now_s : ℤ) (hashv : ℕ)
    (app : BorrowerApplication) :
    (c.evaluate now_ms now_s hashv app).1.interest_rate_apr =
      if app.verified_credits ≥ c.required_credits app.loan_requested ∧
          (c.greenwash_signals app).gap ≤ c.gap_tolerance ∧
          c.greenwashing_score (c.greenwash_signals app) < 50 then
        price BASE_RATE (c.greenwashing_score (c.greenwash_signals app))
      else if app.verified_credits ≥ c.required_credits app.loan_requested ∧
          c.greenwashing_score (c.greenwash_signals app) < 75 then
        price BASE_RATE (c.greenwashing_score (c.greenwash_signals app))
      else 0 := by
  unfold GreenLoanContract.evaluate
  dsimp only
  split_ifs <;> rfl

/-- C10: one call to evaluate appends exactly one record to the audit log,
leaves every previously appended record in place, and leaves the two
configuration fields unchanged. -/
theorem C10_audit_frame (c : GreenLoanContract) (now_ms now_s : ℤ) (hashv : ℕ)
    (app : BorrowerApplication) :
    (c.evaluate now_ms now_s hashv app).2.audit_log.length = c.audit_log.length + 1 ∧
    (c.evaluate now_ms now_s hashv app).2.audit_log.take c.audit_log.length = c.audit_log ∧
    (c.evaluate now_ms now_s hashv app).2.required_credits_per_1k = c.required_credits_per_1k ∧
    (c.evaluate now_ms now_s hashv app).2.gap_tolerance = c.gap_tolerance := by
  obtain ⟨rec, hrec⟩ := evaluate_log_append c now_ms now_s hashv app
  rw [hrec]
  refine ⟨by simp, ?_, rfl, rfl⟩
  exact List.take_left c.audit_log [rec]

/-- C1: the decision status follows the strict priority cascade of
evaluate: APPROVED exactly when verified ≥ required, gap ≤ tolerance and
score < 50; otherwise APPROVED_WITH_PENALTY exactly when verified ≥
required and score < 75; otherwise REJECTED, always with rate 0; and the
status is always one of exactly these three. -/
theorem C1_decision_cascade (c : GreenLoanContract) (now_ms now_s : ℤ) (hashv : ℕ)
    (app : BorrowerApplication) :
    ((c.evaluate now_ms now_s hashv app).1.status = "APPROVED" ↔
      (app.verified_credits ≥ c.required_credits app.loan_requested ∧
        (c.greenwash_signals app).gap ≤ c.gap_tolerance ∧
        c.greenwashing_score (c.greenwash_signals app) < 50)) ∧
    ((c.evaluate now_ms now_s hashv app).1.status = "APPROVED_WITH_PENALTY" ↔
      (¬(app.verified_credits ≥ c.required_credits app.loan_requested ∧
          (c.greenwash_signals app).gap ≤ c.gap_tolerance ∧
          c.greenwashing_score (c.greenwash_signals app) < 50) ∧
        app.verified_credits ≥ c.required_credits app.loan_requested ∧
        c.greenwashing_score (c.greenwash_signals app) < 75)) ∧
    ((c.evaluate now_ms now_s hashv app).1.status = "REJECTED" ↔
      (¬(app.verified_credits ≥ c.required_credits app.loan_requested ∧
          (c.greenwash_signals app).gap ≤ c.gap_tolerance ∧
          c.greenwashing_score (c.greenwash_signals app) < 50) ∧
        ¬(app.verified_credits ≥ c.required_credits app.loan_requested ∧
          c.greenwashing_score (c.greenwash_signals app) < 75))) ∧
    ((c.evaluate now_ms now_s hashv app).1.status = "REJECTED" →
      (c.evaluate now_ms now_s hashv app).1.interest_rate_apr = 0) ∧
    ((c.evaluate now_ms now_s hashv app).1.status = "APPROVED" ∨
      (c.evaluate now_ms now_s hashv app).1.status = "APPROVED_WITH_PENALTY" ∨
      (c.evaluate now_ms now_s hashv app).1.status = "REJECTED") := by
  rw [evaluate_status_eq, evaluate_rate_eq]
  by_cases h1 : (app.verified_credits ≥ c.required_credits app.loan_requested ∧
      (c.greenwash_signals app).gap ≤ c.gap_tolerance ∧
      c.greenwashing_score (c.greenwash_signals app) < 50)
  · rw [if_pos h1, if_pos h1]
    exact ⟨⟨fun _ => h1, fun _ => rfl⟩,
      ⟨fun hc => absurd hc (by decide), fun hc => absurd h1 hc.1⟩,
      ⟨fun hc => absurd hc (by decide), fun hc => absurd h1 hc.1⟩,
      fun hc => absurd hc (by decide), Or.inl rfl⟩
  · rw [if_neg h1, if_neg h1]
    by_cases h2 : (app.verified_credits ≥ c.required_credits app.loan_requested ∧
        c.greenwashing_score (c.greenwash_signals app) < 75)
    · rw [if_pos h2, if_pos h2]
      exact ⟨⟨fun hc => absurd hc (by decide), fun hA => absurd hA h1⟩,
        ⟨fun _ => ⟨h1, h2⟩, fun _ => rfl⟩,
        ⟨fun hc => absurd hc (by decide), fun hc => absurd h2 hc.2⟩,
        fun hc => absurd hc (by decide), Or.inr (Or.inl rfl)⟩
    · rw [if_neg h2, if_neg h2]
      exact ⟨⟨fun hc => absurd hc (by decide), fun hA => absurd hA h1⟩,
        ⟨fun hc => absurd hc (by decide), fun hB => absurd hB.2 h2⟩,
        ⟨fun _ => ⟨h1, h2⟩, fun _ => rfl⟩,
        fun _ => rfl, Or.inr (Or.inr rfl)⟩

theorem C1_witness :
    (defaultContract.evaluate 0 0 0
        { company_id := "A", loan_requested := 1000, reported_credits := 3000,
          verified_credits := 3500, registry_source := "Other", project_type := "Other",
          has_recent_remote_sensing := false, soil_tests_ok := true }).1.status = "APPROVED" ∨
      (defaultContract.evaluate 0 0 0
        { company_id := "A", loan_requested := 1000, reported_credits := 3000,
          verified_credits := 3500, registry_source := "Other", project_type := "Other",
          has_recent_remote_sensing := false, soil_tests_ok := true }).1.status =
        "APPROVED_WITH_PENALTY" ∨
      (defaultContract.evaluate 0 0 0
        { company_id := "A", loan_requested := 1000, reported_credits := 3000,
          verified_credits := 3500, registry_source := "Other", project_type := "Other",
          has_recent_remote_sensing := false, soil_tests_ok := true }).1.status = "REJECTED" :=
  (C1_decision_cascade defaultContract 0 0 0
    { company_id := "A", loan_requested := 1000, reported_credits := 3000,
      verified_credits := 3500, registry_source := "Other", project_type := "Other",
      has_recent_remote_sensing := false, soil_tests_ok := true }).2.2.2.2

theorem round2_clamp_bounds (x : ℚ) :
    0 ≤ round2 (100 * max 0 (min 1 x)) ∧ round2 (100 * max 0 (min 1 x)) ≤ 100 := by
  have h0 : (0:ℚ) ≤ max 0 (min 1 x) := le_max_left _ _
  have h1 : max 0 (min 1 x) ≤ 1 := max_le (by norm_num) (min_le_left _ _)
  constructor
  · have h := round2_mono (show (0:ℚ) ≤ 100 * max 0 (min 1 x) by linarith)
    rwa [round2_zero] at h
  · have h := round2_mono (show (100:ℚ) * max 0 (min 1 x) ≤ 100 by linarith)
    rwa [round2_hundred] at h

/-- C2: for every signal set with non-negative gap and registry, project
and biology values in [0,1], the greenwashing score equals
round(100 × clamp(0.5×min(1, gap/tolerance) + 0.3×(1 − 0.5×(registry +
project)) + 0.2×(1 − biology), 0, 1), 2), and it lies in [0,100] (as it
does for any signal set, by the clamp). -/
theorem C2_score_formula_and_bounds (c : GreenLoanContract) (s : SignalSet)
    (hgap : 0 ≤ s.gap) (hreg0 : 0 ≤ s.registry_quality) (hreg1 : s.registry_quality ≤ 1)
    (hproj0 : 0 ≤ s.project_quality) (hproj1 : s.project_quality ≤ 1)
    (hbio0 : 0 ≤ s.biology_confidence) (hbio1 : s.biology_confidence ≤ 1) :
    c.greenwashing_score s =
      round2 (100 * max 0 (min 1
        ((5/10) * min 1 (s.gap / c.gap_tolerance) +
          (3/10) * (1 - (5/10) * (s.registry_quality + s.project_quality)) +
          (2/10) * (1 - s.biology_confidence)))) ∧
    0 ≤ c.greenwashing_score s ∧ c.greenwashing_score s ≤ 100 := by
  refine ⟨rfl, ?_, ?_⟩
  · exact (round2_clamp_bounds ((5/10) * min 1 (s.gap / c.gap_tolerance) +
      (3/10) * (1 - (5/10) * (s.registry_quality + s.project_quality)) +
      (2/10) * (1 - s.biology_confidence))).1
  · exact (round2_clamp_bounds ((5/10) * min 1 (s.gap / c.gap_tolerance) +
      (3/10) * (1 - (5/10) * (s.registry_quality + s.project_quality)) +
      (2/10) * (1 - s.biology_confidence))).2

theorem C2_witness :
    0 ≤ defaultContract.greenwashing_score
        { gap := 0, registry_quality := 80/100, project_quality := 80/100,
          biology_confidence := 9/10 } ∧
      defaultContract.greenwashing_score
        { gap := 0, registry_quality := 80/100, project_quality := 80/100,
          biology_confidence := 9/10 } ≤ 100 :=
  (C2_score_formula_and_bounds defaultContract
    { gap := 0, registry_quality := 80/100, project_quality := 80/100,
      biology_confidence := 9/10 }
    (by norm_num) (by norm_num) (by norm_num) (by norm_num) (by norm_num)
    (by norm_num) (by norm_num)).2

theorem greenwashing_score_mono_gap (c : GreenLoanContract) (s t : SignalSet)
    (hq : s.registry_quality = t.registry_quality)
    (hp : s.project_quality = t.project_quality)
    (hb : s.biology_confidence = t.biology_confidence)
    (hgap : min 1 (s.gap / c.gap_tolerance) ≤ min 1 (t.gap / c.gap_tolerance)) :
    c.greenwashing_score s ≤ c.greenwashing_score t := by
  unfold GreenLoanContract.greenwashing_score
  dsimp only
  rw [hq, hp, hb]
  apply round2_mono
  have hsum : (5/10 : ℚ) * min 1 (s.gap / c.gap_tolerance) +
        (3/10) * (1 - (5/10) * (t.registry_quality + t.project_quality)) +
        (2/10) * (1 - t.biology_confidence) ≤
      (5/10 : ℚ) * min 1 (t.gap / c.gap_tolerance) +
        (3/10) * (1 - (5/10) * (t.registry_quality + t.project_quality)) +
        (2/10) * (1 - t.biology_confidence) := by
    linarith
  have hmm := max_le_max (le_refl (0:ℚ)) (min_le_min (le_refl (1:ℚ)) hsum)
  linarith

theorem signals_mono (c : GreenLoanContract) (app : BorrowerApplication) (v2 : ℚ)
    (htol : c.gap_tolerance = GREENWASH_GAP_TOLERANCE)
    (h : app.verified_credits < v2) :
    (c.greenwashing_score (c.greenwash_signals { app with verified_credits := v2 }) ≤
      c.greenwashing_score (c.greenwash_signals app)) ∧
    ((c.greenwash_signals app).gap ≤ c.gap_tolerance →
      (c.greenwash_signals { app with verified_credits := v2 }).gap ≤ c.gap_tolerance) := by
  have hg1 : (c.greenwash_signals app).gap =
      (if app.verified_credits > 0 then
        max 0 ((app.reported_credits - app.verified_credits) / app.verified_credits)
      else 1) := rfl
  have hg2 : (c.greenwash_signals { app with verified_credits := v2 }).gap =
      (if v2 > 0 then max 0 ((app.reported_credits - v2) / v2) else 1) := rfl
  have htolpos : (0:ℚ) < c.gap_tolerance := by
    rw [htol]; norm_num [GREENWASH_GAP_TOLERANCE]
  by_cases hv : app.verified_credits > 0
  · have hv2 : (0:ℚ) < v2 := lt_trans hv h
    have hgle : (c.greenwash_signals { app with verified_credits := v2 }).gap ≤
        (c.greenwash_signals app).gap := by
      rw [hg1, hg2, if_pos hv, if_pos hv2]
      rcases le_or_lt app.reported_credits 0 with hrep | hrep
      · have e2 : (app.reported_credits - v2) / v2 ≤ 0 :=
          div_nonpos_iff.mpr (Or.inr ⟨by linarith, by linarith⟩)
        have e1 : (app.reported_credits - app.verified_credits) / app.verified_credits ≤ 0 :=
          div_nonpos_iff.mpr (Or.inr ⟨by linarith, by linarith⟩)
        rw [max_eq_left e2, max_eq_left e1]
      · have hd : app.reported_credits / v2 ≤ app.reported_credits / app.verified_credits :=
          div_le_div_of_nonneg_left (le_of_lt hrep) hv (le_of_lt h)
        have e2 : (app.reported_credits - v2) / v2 = app.reported_credits / v2 - 1 := by
          rw [sub_div, div_self (ne_of_gt hv2)]
        have e1 : (app.reported_credits - app.verified_credits) / app.verified_credits =
            app.reported_credits / app.verified_credits - 1 := by
          rw [sub_div, div_self (ne_of_gt hv)]
        rw [e1, e2]
        exact max_le_max le_rfl (by linarith)
    constructor
    · refine greenwashing_score_mono_gap c
        (c.greenwash_signals { app with verified_credits := v2 })
        (c.greenwash_signals app) rfl rfl rfl ?_
      exact min_le_min le_rfl ((div_le_div_iff_of_pos_right htolpos).mpr hgle)
    · intro hmm
      exact le_trans hgle hmm
  · have hgap1 : (c.greenwash_signals app).gap = 1 := by rw [hg1, if_neg hv]
    constructor
    · refine greenwashing_score_mono_gap c
        (c.greenwash_signals { app with verified_credits := v2 })
        (c.greenwash_signals app) rfl rfl rfl ?_
      rw [hgap1]
      have hrhs : min (1:ℚ) (1 / c.gap_tolerance) = 1 := by
        apply min_eq_left
        rw [htol]
        norm_num [GREENWASH_GAP_TOLERANCE]
      rw [hrhs]
      exact min_le_left _ _
    · intro hmm
      rw [hgap1, htol] at hmm
      norm_num [GREENWASH_GAP_TOLERANCE] at hmm

theorem statusRank_ite (A B : Prop) [Decidable A] [Decidable B] :
    statusRank (if A then "APPROVED" else if B then "APPROVED_WITH_PENALTY" else "REJECTED") =
      if A then 2 else if B then 1 else 0 := by
  split_ifs <;> rfl

/-- C5: with the default gap tolerance, holding all other fields of the
application fixed, strictly increasing the verified credits never moves the
decision status to a less favourable one under the ordering
APPROVED > APPROVED_WITH_PENALTY > REJECTED. -/
theorem C5_verified_monotone (c : GreenLoanContract) (app : BorrowerApplication) (v2 : ℚ)
    (now_ms now_s : ℤ) (hashv : ℕ)
    (htol : c.gap_tolerance = GREENWASH_GAP_TOLERANCE)
    (h : app.verified_credits < v2) :
    statusRank ((c.evaluate now_ms now_s hashv app).1.status) ≤
      statusRank ((c.evaluate now_ms now_s hashv
        { app with verified_credits := v2 }).1.status) := by
  have hmono := signals_mono c app v2 htol h
  have hsuff : app.verified_credits ≥ c.required_credits app.loan_requested →
      v2 ≥ c.required_credits app.loan_requested := fun hs => le_trans hs (le_of_lt h)
  rw [evaluate_status_eq, evaluate_status_eq, statusRank_ite, statusRank_ite]
  show (if app.verified_credits ≥ c.required_credits app.loan_requested ∧
        (c.greenwash_signals app).gap ≤ c.gap_tolerance ∧
        c.greenwashing_score (c.greenwash_signals app) < 50 then 2
      else if app.verified_credits ≥ c.required_credits app.loan_requested ∧
        c.greenwashing_score (c.greenwash_signals app) < 75 then 1
      else 0) ≤
    (if v2 ≥ c.required_credits app.loan_requested ∧
        (c.greenwash_signals { app with verified_credits := v2 }).gap ≤ c.gap_tolerance ∧
        c.greenwashing_score (c.greenwash_signals { app with verified_credits := v2 }) < 50
      then 2
      else if v2 ≥ c.required_credits app.loan_requested ∧
        c.greenwashing_score (c.greenwash_signals { app with verified_credits := v2 }) < 75
      then 1
      else 0)
  by_cases hA1 : (app.verified_credits ≥ c.required_credits app.loan_requested ∧
      (c.greenwash_signals app).gap ≤ c.gap_tolerance ∧
      c.greenwashing_score (c.greenwash_signals app) < 50)
  · have hA2 : v2 ≥ c.required_credits app.loan_requested ∧
        (c.greenwash_signals { app with verified_credits := v2 }).gap ≤ c.gap_tolerance ∧
        c.greenwashing_score (c.greenwash_signals { app with verified_credits := v2 }) < 50 :=
      ⟨hsuff hA1.1, hmono.2 hA1.2.1, lt_of_le_of_lt hmono.1 hA1.2.2⟩
    rw [if_pos hA1, if_pos hA2]
  · rw [if_neg hA1]
    by_cases hB1 : (app.verified_credits ≥ c.required_credits app.loan_requested ∧
        c.greenwashing_score (c.greenwash_signals app) < 75)
    · have hB2 : v2 ≥ c.required_credits app.loan_requested ∧
          c.greenwashing_score (c.greenwash_signals { app with verified_credits := v2 }) < 75 :=
        ⟨hsuff hB1.1, lt_of_le_of_lt hmono.1 hB1.2⟩
      rw [if_pos hB1]
      by_cases hA2 : (v2 ≥ c.required_credits app.loan_requested ∧
          (c.greenwash_signals { app with verified_credits := v2 }).gap ≤ c.gap_tolerance ∧
          c.greenwashing_score (c.greenwash_signals { app with verified_credits := v2 }) < 50)
      · rw [if_pos hA2]
        norm_num
      · rw [if_neg hA2, if_pos hB2]
    · rw [if_neg hB1]
      exact Nat.zero_le _

theorem C5_witness :
    defaultContract.gap_tolerance = GREENWASH_GAP_TOLERANCE ∧ (0:ℚ) < 3500 ∧
      statusRank ((defaultContract.evaluate 0 0 0
          { company_id := "A", loan_requested := 1000, reported_credits := 3000,
            verified_credits := 0, registry_source := "Other", project_type := "Other",
            has_recent_remote_sensing := false, soil_tests_ok := true }).1.status) ≤
        statusRank ((defaultContract.evaluate 0 0 0
          { company_id := "A", loan_requested := 1000, reported_credits := 3000,
            verified_credits := 3500, registry_source := "Other", project_type := "Other",
            has_recent_remote_sensing := false, soil_tests_ok := true }).1.status) :=
  ⟨rfl, by norm_num,
    C5_verified_monotone defaultContract
      { company_id := "A", loan_requested := 1000, reported_credits := 3000,
        verified_credits := 0, registry_source := "Other", project_type := "Other",
        has_recent_remote_sensing := false, soil_tests_ok := true }
      3500 0 0 0 rfl (by norm_num)⟩

end ESG
